import Mathlib

/-!
Shallow embedding of the history service of the jal-mahakal-shakti repository
(src/js/services/historyService.js, with the tank geometry contract of
src/js/models.js), together with theorems settling the frozen claims about it.

Modelling conventions:
* JavaScript numbers are modelled as ℤ (timestamps, counts) and ℚ (distances,
  tank dimensions, volumes).  JavaScript `||` on numbers is modelled by
  zero-as-falsy helpers (`jsOrI`, `jsOrQ`); `undefined` fields are `Option`.
* `String(n)` on a number is modelled by `jsStrI` / `jsStrQ`.  `jsStrQ`
  renders the exact terminating decimal of the rational; every IEEE-754
  double is a dyadic rational, whose decimal expansion terminates, so the
  non-terminating fallback branch is unreachable for genuine JS values.
* `Date.now()` is passed in as an explicit `now : ℤ` parameter (one fixed
  instant per call).  `new Date(t).toISOString()` is implemented as a
  proleptic-Gregorian renderer `toISOString`; JS raises on |t| beyond
  8.64e15 while the model extends the calendar totally, which no settled
  claim depends on.
* The store is an association list from storage key to entry; `set`
  overwrites the value at a key.  Asynchronous writes all succeed in the
  model (individual write failures are caught and only affect counts,
  which no claim exercises).  The existing-history read is passed to sync
  as an `Except`, mirroring a store `get` that may throw.
* `Array.prototype.sort` (stable in JS) is modelled by insertion sort,
  which computes the same stable order for a consistent comparator.
-/

/-- Left-pad a digit string with zeros up to width `k`. -/
def padZeros (k : Nat) (s : String) : String :=
  String.mk (List.replicate (k - s.length) '0') ++ s

/-- JS `String(n)` for an integer-valued number. -/
def jsStrI (t : ℤ) : String := toString t

/-- Smallest exponent `k` (searched up to 400) with `den ∣ 10 ^ k`; exists
exactly when the rational has a terminating decimal expansion. -/
def findDecExp (den : ℕ) : Option ℕ := (List.range 400).find? (fun k => den ∣ 10 ^ k)

/-- JS `String(x)` for a fractional number: the shortest terminating decimal
rendering of the rational (matching the shortest round-trip decimal that JS
prints for the idealized value).  Rationals with no terminating expansion,
which do not arise from IEEE doubles, fall back to a num/den rendering. -/
def jsStrQ (q : ℚ) : String :=
  if q.den = 1 then toString q.num
  else
    match findDecExp q.den with
    | some k =>
        let sign := if q.num < 0 then "-" else ""
        let n := q.num.natAbs * 10 ^ k / q.den
        sign ++ toString (n / 10 ^ k) ++ "." ++ padZeros k (toString (n % 10 ^ k))
    | none => toString q.num ++ "/" ++ toString q.den

/-- JS truthiness of a possibly-absent number (`undefined`, `null` and `0`
are falsy). -/
def truthyQ (o : Option ℚ) : Bool :=
  match o with
  | some v => decide (v ≠ 0)
  | none => false

/-- JS `a || b` for integers (0 is falsy). -/
def jsOrI (a b : ℤ) : ℤ := if a = 0 then b else a

/-- JS `a || b` for a possibly-absent rational with a rational default. -/
def jsOrQ (o : Option ℚ) (dflt : ℚ) : ℚ :=
  match o with
  | some v => if v = 0 then dflt else v
  | none => dflt

/-- JS `a || b` for a possibly-absent string (the empty string is falsy). -/
def jsOrStr (o : Option String) (dflt : String) : String :=
  match o with
  | some s => if s = "" then dflt else s
  | none => dflt

/-- JS `Math.round`: nearest integer, ties toward positive infinity. -/
def jsRound (q : ℚ) : ℤ := ⌊q + 1/2⌋

/-- The value of the IEEE-754 double `Math.PI` (884279719003555 · 2⁻⁴⁸). -/
def jsPI : ℚ := (884279719003555 : ℚ) / 281474976710656

/-- JS `Number.prototype.toFixed(decimals)`: fixed-point rendering, rounding
to nearest with ties away from the smaller value (the model ignores the
negative-zero rendering corner of JS). -/
def toFixed (decimals : ℕ) (q : ℚ) : String :=
  let m : ℤ := ⌊q * 10 ^ decimals + 1/2⌋
  let sign := if m < 0 then "-" else ""
  if decimals = 0 then sign ++ toString m.natAbs
  else
    sign ++ toString (m.natAbs / 10 ^ decimals) ++ "." ++
      padZeros decimals (toString (m.natAbs % 10 ^ decimals))

/-- Replacement for a single character (used for `.replace(/\./g, _)`). -/
def replaceDotChar (c : Char) : Char := if c = '.' then '_' else c

/-- JS `s.replace(/\./g, "_")`: every dot becomes an underscore. -/
def replaceDots (s : String) : String := String.mk (s.data.map replaceDotChar)

/-- Character-level body of `s.replace(/"/g, a doubled quote)`. -/
def escQuoteChars : List Char → List Char
  | [] => []
  | c :: rest =>
      if c = '"' then '"' :: '"' :: escQuoteChars rest
      else c :: escQuoteChars rest

/-- JS replace of every double quote by two double quotes (CSV escaping). -/
def escapeQuotes (s : String) : String := String.mk (escQuoteChars s.data)

/-- Civil date (year, month, day) from days since the Unix epoch, by the
standard era-based conversion. -/
def civilFromDays (z : ℤ) : ℤ × ℕ × ℕ :=
  let era : ℤ := Int.fdiv (z + 719468) 146097
  let doe : ℕ := (z + 719468 - era * 146097).toNat
  let yoe : ℕ := (doe - doe / 1460 + doe / 36524 - doe / 146096) / 365
  let doy : ℕ := doe - (365 * yoe + yoe / 4 - yoe / 100)
  let mp : ℕ := (5 * doy + 2) / 153
  let day : ℕ := doy - (153 * mp + 2) / 5 + 1
  let month : ℕ := if mp < 10 then mp + 3 else mp - 9
  (era * 400 + yoe + (if month ≤ 2 then 1 else 0), month, day)

/-- JS `new Date(t).toISOString()` on a millisecond epoch value, modelled as
a total proleptic-Gregorian renderer. -/
def toISOString (t : ℤ) : String :=
  let days : ℤ := Int.fdiv t 86400000
  let msOfDay : ℕ := (t - days * 86400000).toNat
  let c := civilFromDays days
  let y := c.1
  let yearStr :=
    if 0 ≤ y ∧ y ≤ 9999 then padZeros 4 (toString y.toNat)
    else (if y < 0 then "-" else "+") ++ padZeros 6 (toString y.natAbs)
  yearStr ++ "-" ++ padZeros 2 (toString c.2.1) ++ "-" ++ padZeros 2 (toString c.2.2) ++
    "T" ++ padZeros 2 (toString (msOfDay / 3600000)) ++ ":" ++
    padZeros 2 (toString (msOfDay % 3600000 / 60000)) ++ ":" ++
    padZeros 2 (toString (msOfDay % 60000 / 1000)) ++ "." ++
    padZeros 3 (toString (msOfDay % 1000)) ++ "Z"

/-- JS `toLocaleDateString` with the en-IN locale, modelled as the
day/month/year rendering (exact locale output is environment defined and
not load-bearing for any claim). -/
def enInDate (t : ℤ) : String :=
  let c := civilFromDays (Int.fdiv t 86400000)
  toString c.2.2 ++ "/" ++ toString c.2.1 ++ "/" ++ toString c.1

/-- JS `toLocaleTimeString` with the en-IN locale, modelled as a 12-hour
clock rendering. -/
def enInTime (t : ℤ) : String :=
  let days : ℤ := Int.fdiv t 86400000
  let msOfDay : ℕ := (t - days * 86400000).toNat
  let hh : ℕ := msOfDay / 3600000
  let hh12 : ℕ := if hh % 12 = 0 then 12 else hh % 12
  toString hh12 ++ ":" ++ padZeros 2 (toString (msOfDay % 3600000 / 60000)) ++ ":" ++
    padZeros 2 (toString (msOfDay % 60000 / 1000)) ++ (if hh < 12 then " am" else " pm")

/-- JS `toLocaleString`, modelled as date plus time. -/
def enInDateTime (t : ℤ) : String := enInDate t ++ ", " ++ enInTime t

/-- A raw device reading, as consumed by the history service.  Only the two
fields the service reads (`timestamp`, `distance`) are modelled; further
free-form device fields ride along unread and are outside the model. -/
structure Reading where
  timestamp : Option ℤ
  distance : Option ℚ
deriving DecidableEq

/-- The tank geometry contract consumed by sync: raw property access on a
plain object, every field possibly absent. -/
structure Tank where
  shape : String
  diameter : Option ℚ
  length : Option ℚ
  breadth : Option ℚ
  height : Option ℚ
  sensorHeight : Option ℚ
  capacity : Option ℚ
deriving DecidableEq

/-- A persisted history entry (the object written to the store by sync).
Missing numeric timestamp fields are modelled as 0, which is falsy in JS
exactly like `undefined` in every `||` chain that reads them back. -/
structure HistoryEntry where
  distance : Option ℚ
  distance_meters : Option ℚ
  distance_cm : Option String
  originalTimestamp : ℤ
  deviceTimestamp : ℤ
  timestamp : ℤ
  date : String
  waterLevel : Option ℚ
  currentVolume : Option ℤ
  capacity : Option ℚ
  shape : Option String
  diameter : Option ℚ
  length : Option ℚ
  breadth : Option ℚ
  height : Option ℚ
  sensorHeight : Option ℚ
deriving DecidableEq

/-- Result object of `syncDeviceReadingsToHistory`. -/
structure SyncResult where
  synced : ℕ
  skipped : ℕ
  error : Option String
deriving DecidableEq

/-- normalizeTimestamp (historyService.js:32): canonicalize a raw timestamp
to milliseconds or return null. -/
def normalizeTimestamp (timestamp : Option ℤ) : Option ℤ :=
  match timestamp with
  | none => none
  | some t =>
      if t = 0 then none
      else if t < 1000000 then none
      else if 1000000 ≤ t ∧ t < 946684800 then
        if t * 1000 ≥ 946684800000 then some (t * 1000) else none
      else if t ≥ 946684800000 then some t
      else none

/-- String rendering of `distance || 0` as used by generateHistoryKey. -/
def distKeyStr (distance : Option ℚ) : String :=
  match distance with
  | some d => if d = 0 then "0" else jsStrQ d
  | none => "0"

/-- generateHistoryKey (historyService.js:23): storage key from the original
timestamp (falling back to `Date.now()` when falsy) and the distance
(falling back to 0), with dots in the distance replaced by underscores. -/
def generateHistoryKey (now : ℤ) (originalTimestamp : Option ℤ) (distance : Option ℚ) : String :=
  let ts := match originalTimestamp with
            | some t => if t = 0 then jsStrI now else jsStrI t
            | none => jsStrI now
  ts ++ "_" ++ replaceDots (distKeyStr distance)

/-- The raw timestamp of a reading: `reading.timestamp || 0`. -/
def rawTs (r : Reading) : ℤ := r.timestamp.getD 0

/-- The in-loop duplicate-check key of sync (historyService.js:101):
a template literal, with no dot replacement. -/
def readingDedupKey (r : Reading) : String :=
  jsStrI (rawTs r) ++ "_" ++ distKeyStr r.distance

/-- The duplicate-detection key derived from an existing entry
(historyService.js:73-77): `originalTimestamp || deviceTimestamp ||
timestamp || empty` joined with `distance || empty`. -/
def entryDedupKey (h : HistoryEntry) : String :=
  let ts := if h.originalTimestamp ≠ 0 then jsStrI h.originalTimestamp
            else if h.deviceTimestamp ≠ 0 then jsStrI h.deviceTimestamp
            else if h.timestamp ≠ 0 then jsStrI h.timestamp
            else ""
  let dist := match h.distance with
              | some d => if d = 0 then "" else jsStrQ d
              | none => ""
  ts ++ "_" ++ dist

/-- The synthesized timestamp for a reading without a trustworthy clock
value (historyService.js:111-116): `now` minus five minutes per reverse
position in the sorted batch. -/
def synthTs (now : ℤ) (n i : ℕ) : ℤ := now - ((n - 1 - i) * 5 * 60 * 1000 : ℕ)

/-- The canonical timestamp sync computes for the reading at index `i` of
the sorted batch of length `n` (historyService.js:108-117). -/
def canonicalTs (now : ℤ) (n i : ℕ) (raw : ℤ) : ℤ :=
  match normalizeTimestamp (some raw) with
  | some v => if v < 946684800000 then synthTs now n i else v
  | none => synthTs now n i

/-- The effective sensor height of a tank: `sensorHeight || height || 10`
(historyService.js:136). -/
def tankSensorHeight (tk : Tank) : ℚ := jsOrQ tk.sensorHeight (jsOrQ tk.height 10)

/-- The clamped water level computed by sync (historyService.js:137). -/
def tankWaterLevel (tk : Tank) (distance : ℚ) : ℚ :=
  max 0 (min (tankSensorHeight tk) (tankSensorHeight tk - distance))

/-- The raw (unrounded) volume computed by sync (historyService.js:140-150):
shape-guarded cylinder and cuboid formulas with truthiness guards on the
dimensions, defaulting to linear interpolation against `height || 10` and
`capacity || 20000`. -/
def tankCurrentVolumeRaw (tk : Tank) (waterLevel : ℚ) : ℚ :=
  if tk.shape = "cylinder" ∧ truthyQ tk.diameter = true then
    jsPI * (tk.diameter.getD 0 / 2) ^ 2 * waterLevel * 1000
  else if tk.shape = "cuboid" ∧ truthyQ tk.length = true ∧ truthyQ tk.breadth = true then
    tk.length.getD 0 * tk.breadth.getD 0 * waterLevel * 1000
  else waterLevel / jsOrQ tk.height 10 * jsOrQ tk.capacity 20000

/-- The history entry built by sync for one reading
(historyService.js:119-162).  The explicit fields are listed first and the
reading is spread afterwards (`...reading`), so a `timestamp` present on the
reading overwrites the canonical one; the tank metrics are assigned after
the spread and cannot be overwritten. -/
def buildHistoryEntry (r : Reading) (raw normalized : ℤ) (tank : Option Tank) : HistoryEntry :=
  let base : HistoryEntry :=
    { distance := r.distance
      distance_meters := r.distance
      distance_cm := match r.distance with
                     | some d => if d = 0 then none else some (toFixed 1 (d * 100))
                     | none => none
      originalTimestamp := raw
      deviceTimestamp := raw
      timestamp := match r.timestamp with
                   | some t => t
                   | none => normalized
      date := toISOString normalized
      waterLevel := none
      currentVolume := none
      capacity := none
      shape := none
      diameter := none
      length := none
      breadth := none
      height := none
      sensorHeight := none }
  match tank, r.distance with
  | some tk, some d =>
      let wl := tankWaterLevel tk d
      { base with
        waterLevel := some wl
        currentVolume := some (jsRound (tankCurrentVolumeRaw tk wl))
        capacity := some (jsOrQ tk.capacity 20000)
        shape := some tk.shape
        diameter := tk.diameter
        length := tk.length
        breadth := tk.breadth
        height := tk.height
        sensorHeight := some (tankSensorHeight tk) }
  | _, _ => base

/-- getHistoryRaw (historyService.js:199-214): returns the stored entries,
catching any store exception and returning the empty list. -/
def getHistoryRaw (res : Except String (List HistoryEntry)) : List HistoryEntry :=
  match res with
  | .ok l => l
  | .error _ => []

/-- The per-reading loop of sync (historyService.js:90-178), processing the
sorted batch from index `i` with `n` the total batch length: counts a
reading with a falsy timestamp or an already-known duplicate key as
skipped, and otherwise emits a write of the built entry under its
generateHistoryKey.  All writes succeed in the model, so the synced count
equals the number of emitted writes. -/
def processReadings (now : ℤ) (n : ℕ) (keys : List String) (tank : Option Tank) :
    ℕ → List Reading → ℕ × ℕ × List (String × HistoryEntry)
  | _, [] => (0, 0, [])
  | i, r :: rest =>
      let t := processReadings now n keys tank (i + 1) rest
      if rawTs r = 0 then (t.1, t.2.1 + 1, t.2.2)
      else if readingDedupKey r ∈ keys then (t.1, t.2.1 + 1, t.2.2)
      else
        let e := buildHistoryEntry r (rawTs r) (canonicalTs now n i (rawTs r)) tank
        (t.1 + 1, t.2.1, (generateHistoryKey now (some (rawTs r)) r.distance, e) :: t.2.2)

/-- syncDeviceReadingsToHistory (historyService.js:61-196): empty batches
return zero counts; otherwise the existing dedup keys are collected, the
batch is stably sorted ascending by raw timestamp, and each reading is
either skipped or written.  Returns the result object together with the
writes issued to the store.  The surrounding try/catch maps an exception
from the body to a zero-count error result; no step of the embedded body
throws, so the success shape is returned (the existing-history read is
already caught inside getHistoryRaw). -/
def syncDeviceReadingsToHistory (now : ℤ) (histRead : Except String (List HistoryEntry))
    (readings : List Reading) (tank : Option Tank) :
    SyncResult × List (String × HistoryEntry) :=
  if readings.isEmpty then (⟨0, 0, none⟩, [])
  else
    let existingKeys := (getHistoryRaw histRead).map entryDedupKey
    let sorted := readings.insertionSort (fun a b => rawTs a ≤ rawTs b)
    let out := processReadings now sorted.length existingKeys tank 0 sorted
    (⟨out.1, out.2.1, none⟩, out.2.2)

/-- Store write: path-addressed overwrite in an association list. -/
def storeSet (store : List (String × HistoryEntry)) (k : String) (e : HistoryEntry) :
    List (String × HistoryEntry) :=
  if store.any (fun p => decide (p.1 = k)) then
    store.map (fun p => if p.1 = k then (k, e) else p)
  else store ++ [(k, e)]

/-- Apply the writes issued by sync to the store, in order. -/
def applyWrites (store : List (String × HistoryEntry)) (writes : List (String × HistoryEntry)) :
    List (String × HistoryEntry) :=
  writes.foldl (fun s w => storeSet s w.1 w.2) store

/-- Object.values of the store. -/
def storeValues (store : List (String × HistoryEntry)) : List HistoryEntry :=
  store.map Prod.snd

/-- A normalized query result element: the entry with its timestamp
overwritten by the effective timestamp, plus the added `sortKey` field
(historyService.js:237-253). -/
structure QueryEntry where
  entry : HistoryEntry
  sortKey : ℤ
deriving DecidableEq

/-- The defensive fallback of the query-time normalization
(historyService.js:240-246). -/
def effectiveFallback (now : ℤ) (h : HistoryEntry) : ℤ :=
  if h.timestamp ≠ 0 ∧ 946684800000 < h.timestamp then h.timestamp
  else jsOrI h.timestamp now

/-- The effective timestamp getHistory computes for a stored entry
(historyService.js:238-246): re-normalize `timestamp || originalTimestamp
|| deviceTimestamp`, falling back to the stored timestamp or the current
instant. -/
def effectiveTs (now : ℤ) (h : HistoryEntry) : ℤ :=
  match normalizeTimestamp (some (jsOrI h.timestamp (jsOrI h.originalTimestamp h.deviceTimestamp))) with
  | some v => if v < 946684800000 then effectiveFallback now h else v
  | none => effectiveFallback now h

/-- The normalization pass of getHistory (historyService.js:237-253): map
each entry to its effective timestamp plus sort key, then drop entries with
a falsy timestamp. -/
def normalizeHistory (now : ℤ) (entries : List HistoryEntry) : List QueryEntry :=
  (entries.map (fun h =>
      QueryEntry.mk { h with timestamp := effectiveTs now h }
        (jsOrI h.originalTimestamp (jsOrI h.deviceTimestamp (jsOrI h.timestamp 0))))).filter
    (fun q => decide (q.entry.timestamp ≠ 0))

/-- The two-tier descending comparator of getHistory
(historyService.js:279-284). -/
def queryCmp (a b : QueryEntry) : ℤ :=
  if a.sortKey ≠ 0 ∧ b.sortKey ≠ 0 ∧ a.sortKey < 1000000 ∧ b.sortKey < 1000000 then
    b.sortKey - a.sortKey
  else b.entry.timestamp - a.entry.timestamp

/-- The optional date-range filters of getHistory (historyService.js:262-273),
taking the already-computed start and end boundary instants. -/
def applyDateFilter (startTime endTime : Option ℤ) (l : List QueryEntry) : List QueryEntry :=
  let l1 := match startTime with
            | some st => l.filter (fun q => decide (st ≤ q.entry.timestamp))
            | none => l
  match endTime with
  | some et => l1.filter (fun q => decide (q.entry.timestamp ≤ et))
  | none => l1

/-- getHistory (historyService.js:217-293): normalize, filter by date range
only when at least one effective timestamp exceeds the year-2000 threshold,
and sort with the two-tier comparator.  The date arguments are modelled as
the boundary instants in milliseconds that the JS code derives from them. -/
def getHistory (now : ℤ) (entries : List HistoryEntry) (startTime endTime : Option ℤ) :
    List QueryEntry :=
  let history := normalizeHistory now entries
  let hasValid := history.any (fun q => decide (946684800000 < q.entry.timestamp))
  let filtered := if hasValid then applyDateFilter startTime endTime history else history
  filtered.insertionSort (fun a b => queryCmp a b ≤ 0)

/-- An entry as consumed by the CSV exporter: the union of the fields the
two row mappers read (historyService.js:325-373). -/
structure CsvRecord where
  timestamp : Option ℤ
  date : Option String
  distance : Option ℚ
  distance_cm : Option ℚ
  waterLevel : Option ℚ
  currentVolume : Option ℚ
  mainFlowRate : Option ℚ
  householdSupply : Option ℚ
  pressureChange : Option ℚ
  valveStates : Option (List (String × String))
  valveState : Option String
  active : Bool
  supplyFlow : Option ℚ
  avgSupplyPerHousehold : Option ℚ
  households : Option ℤ
  householdsServed : Option ℤ
  battery : Option ℚ
  pressure : Option ℚ
  changes : Option String
deriving DecidableEq

/-- safeNumber (historyService.js:301-306): absent or non-numeric values
render as the empty string, numbers as fixed-decimal strings (NaN and
infinities have no ℚ counterpart and are covered by the absent case). -/
def safeNumber (value : Option ℚ) (decimals : ℕ) : String :=
  match value with
  | none => ""
  | some v => toFixed decimals v

/-- The valve-states string of the tanks row mapper
(historyService.js:329-331). -/
def valveStatesStr (r : CsvRecord) : String :=
  match r.valveStates with
  | some vs => String.intercalate "; " (vs.map (fun p => p.1 ++ ":" ++ p.2))
  | none => "No data"

/-- The tanks-schema row mapper (historyService.js:325-345).  The final
valve-states cell is wrapped in double quotes with no escaping of embedded
quotes. -/
def tanksRowCells (now : ℤ) (r : CsvRecord) : List String :=
  let t := match r.timestamp with
           | some v => if v = 0 then now else v
           | none => now
  [enInDate t,
   enInTime t,
   safeNumber r.distance 3,
   safeNumber r.distance_cm 1,
   safeNumber r.waterLevel 2,
   safeNumber r.currentVolume 0,
   safeNumber r.mainFlowRate 2,
   jsStrQ (jsOrQ r.householdSupply 0),
   safeNumber r.pressureChange 1,
   "\"" ++ valveStatesStr r ++ "\""]

/-- The valve-schema row mapper (historyService.js:361-373).  The final
changes cell is wrapped in double quotes with embedded quotes doubled. -/
def valveRowCells (now : ℤ) (r : CsvRecord) : List String :=
  let t := match r.timestamp with
           | some v => if v = 0 then now else v
           | none => now
  [(match r.timestamp with
    | some v => if v = 0 then "" else jsStrI v
    | none => ""),
   jsOrStr r.date (enInDateTime t),
   jsOrStr r.valveState "unknown",
   (if r.active then "CLOSED" else "OPEN"),
   safeNumber r.supplyFlow 2,
   safeNumber r.avgSupplyPerHousehold 2,
   (match r.households with
    | some v => if v = 0 then "" else jsStrI v
    | none => ""),
   jsStrI (match r.householdsServed with
           | some v => if v = 0 then 0 else v
           | none => 0),
   safeNumber r.battery 0,
   safeNumber r.pressure 1,
   "\"" ++ escapeQuotes (jsOrStr r.changes "No changes") ++ "\""]

/-- The tanks-schema header row (historyService.js:312-323). -/
def tanksHeaders : List String :=
  ["Date", "Time", "Distance (m)", "Distance (cm)", "Water Level (m)", "Volume (L)",
   "Main Flow Rate (L/min)", "Household Supply (count)", "Pressure (PSI)", "Valve States"]

/-- The valve-schema header row (historyService.js:347-359). -/
def valveHeaders : List String :=
  ["Timestamp", "Date", "Valve State", "Control Status", "Supply Flow (L/min)",
   "Avg Supply/HH (L/min)", "Total Households", "Households Served", "Battery (%)",
   "Pressure (PSI)", "Changes"]

/-- exportToCSV (historyService.js:295-386), restricted to the produced CSV
text: none on an empty history (the code shows a notice and returns), else
the header line followed by one comma-joined row per entry.  The blob
download side effect is outside the model. -/
def exportToCSVContent (deviceType : String) (now : ℤ) (history : List CsvRecord) :
    Option String :=
  if history.isEmpty then none
  else if deviceType = "tanks" then
    some (String.intercalate "\n"
      (String.intercalate "," tanksHeaders ::
        history.map (fun r => String.intercalate "," (tanksRowCells now r))))
  else
    some (String.intercalate "\n"
      (String.intercalate "," valveHeaders ::
        history.map (fun r => String.intercalate "," (valveRowCells now r))))

/-- Decides whether a CSV cell is correctly quoted from the position after
an opening quote: the remainder must close with a final quote and every
interior quote must appear as an adjacent doubled pair. -/
def quotedTail : List Char → Bool
  | [] => false
  | [c] => decide (c = '"')
  | c :: c2 :: rest =>
      if c = '"' then
        if c2 = '"' then quotedTail rest else false
      else quotedTail (c2 :: rest)

/-- A CSV cell is well quoted when it opens with a double quote and its
remainder satisfies `quotedTail`: such a cell never breaks the row quoting,
because every embedded quote is doubled. -/
def wellQuotedB (s : String) : Bool :=
  match s.data with
  | [] => false
  | c :: rest => if c = '"' then quotedTail rest else false

/-! ## Shared lemmas -/

/-- Truthiness of an optional rational unpacked. -/
theorem truthyQ_eq_true (o : Option ℚ) : truthyQ o = true ↔ ∃ v, o = some v ∧ v ≠ 0 := by
  cases o <;> simp [truthyQ]

/-- The JS `||` fallback for rationals never produces zero when its default
is nonzero. -/
theorem jsOrQ_ne_zero (o : Option ℚ) (dflt : ℚ) (h : dflt ≠ 0) : jsOrQ o dflt ≠ 0 := by
  unfold jsOrQ
  cases o with
  | none => exact h
  | some v =>
      by_cases hv : v = 0
      · simpa [hv] using h
      · simpa [hv] using hv

/-- The built entry keeps the raw timestamp in its originalTimestamp field
(the tank-metric assignments do not touch it). -/
theorem buildHistoryEntry_originalTimestamp (r : Reading) (raw norm : ℤ) (tank : Option Tank) :
    (buildHistoryEntry r raw norm tank).originalTimestamp = raw := by
  unfold buildHistoryEntry
  cases tank with
  | none => rfl
  | some tk =>
      cases r.distance with
      | none => rfl
      | some d => rfl

/-- The built entry keeps the reading distance in its distance field. -/
theorem buildHistoryEntry_distance (r : Reading) (raw norm : ℤ) (tank : Option Tank) :
    (buildHistoryEntry r raw norm tank).distance = r.distance := by
  unfold buildHistoryEntry
  cases tank with
  | none => rfl
  | some tk =>
      cases r.distance with
      | none => rfl
      | some d => rfl

/-- For a nonzero raw timestamp and a present nonzero distance, the dedup
key later derived from the persisted entry coincides with the in-loop
duplicate-check key of the reading. -/
theorem entryDedupKey_build (r : Reading) (raw norm : ℤ) (tank : Option Tank)
    (hraw : raw ≠ 0) (d : ℚ) (hd : r.distance = some d) (hdnz : d ≠ 0) :
    entryDedupKey (buildHistoryEntry r raw norm tank) = jsStrI raw ++ "_" ++ jsStrQ d := by
  unfold entryDedupKey
  rw [buildHistoryEntry_originalTimestamp, buildHistoryEntry_distance, hd]
  simp [hraw, hdnz]

/-- The in-loop duplicate-check key of a reading with a present nonzero
distance. -/
theorem readingDedupKey_truthy (r : Reading) (d : ℚ) (hd : r.distance = some d) (hdnz : d ≠ 0) :
    readingDedupKey r = jsStrI (rawTs r) ++ "_" ++ jsStrQ d := by
  unfold readingDedupKey distKeyStr
  rw [hd]
  simp [hdnz]

/-- Every reading with a truthy timestamp and truthy distance is, after the
processing loop, either already known to the key set or covered by an
emitted write whose entry carries the same dedup key. -/
theorem processReadings_covers (now : ℤ) (n : ℕ) (keys : List String) (tank : Option Tank) :
    ∀ (i : ℕ) (l : List Reading), ∀ r ∈ l, rawTs r ≠ 0 → truthyQ r.distance = true →
      readingDedupKey r ∈ keys ∨
      ∃ p ∈ (processReadings now n keys tank i l).2.2, entryDedupKey p.2 = readingDedupKey r := by
  intro i l
  induction l generalizing i with
  | nil => intro r hr; exact absurd hr (List.not_mem_nil r)
  | cons a l ih =>
      intro r hr hraw htruthy
      rcases List.mem_cons.mp hr with heq | hmem
      · subst heq
        by_cases hk : readingDedupKey r ∈ keys
        · exact Or.inl hk
        · right
          obtain ⟨d, hd, hdnz⟩ := (truthyQ_eq_true r.distance).mp htruthy
          refine ⟨(generateHistoryKey now (some (rawTs r)) r.distance,
              buildHistoryEntry r (rawTs r) (canonicalTs now n i (rawTs r)) tank), ?_, ?_⟩
          · simp only [processReadings]
            rw [if_neg hraw, if_neg hk]
            exact List.mem_cons_self _ _
          · rw [entryDedupKey_build r (rawTs r) _ tank hraw d hd hdnz,
              readingDedupKey_truthy r d hd hdnz]
      · rcases ih (i + 1) r hmem hraw htruthy with hk | ⟨p, hp, hkey⟩
        · exact Or.inl hk
        · right
          refine ⟨p, ?_, hkey⟩
          simp only [processReadings]
          split
          · exact hp
          · split
            · exact hp
            · exact List.mem_cons_of_mem _ hp

/-- When every reading is falsy-timestamped or already known, the processing
loop skips everything: zero synced, everything skipped, no writes. -/
theorem processReadings_all_skip (now : ℤ) (n : ℕ) (keys : List String) (tank : Option Tank) :
    ∀ (i : ℕ) (l : List Reading), (∀ r ∈ l, rawTs r = 0 ∨ readingDedupKey r ∈ keys) →
      processReadings now n keys tank i l = (0, l.length, []) := by
  intro i l
  induction l generalizing i with
  | nil => intro _; rfl
  | cons a l ih =>
      intro h
      have ht := ih (i + 1) (fun r hr => h r (List.mem_cons_of_mem a hr))
      rcases h a (List.mem_cons_self a l) with h0 | hk
      · simp only [processReadings, ht, h0, if_pos rfl, List.length_cons]
        simp
      · by_cases h0 : rawTs a = 0
        · simp only [processReadings, ht, if_pos h0, List.length_cons]
        · simp only [processReadings, ht, if_neg h0, if_pos hk, List.length_cons]

/-- Writing at a key absent from the store appends the pair. -/
theorem storeSet_fresh (store : List (String × HistoryEntry)) (k : String) (e : HistoryEntry)
    (h : ∀ p ∈ store, p.1 ≠ k) : storeSet store k e = store ++ [(k, e)] := by
  unfold storeSet
  rw [if_neg]
  simp only [List.any_eq_true, decide_eq_true_eq, not_exists]
  intro p hmem
  exact h p hmem.1 hmem.2

/-- Applying writes whose keys are mutually distinct and absent from the
store appends them all. -/
theorem applyWrites_fresh :
    ∀ (writes store : List (String × HistoryEntry)),
      (writes.map Prod.fst).Nodup →
      (∀ k ∈ writes.map Prod.fst, ∀ p ∈ store, p.1 ≠ k) →
      applyWrites store writes = store ++ writes := by
  intro writes
  induction writes with
  | nil => intro store _ _; simp [applyWrites]
  | cons w ws ih =>
      intro store hnodup hfresh
      rw [List.map_cons, List.nodup_cons] at hnodup
      have hw : ∀ p ∈ store, p.1 ≠ w.1 :=
        hfresh w.1 (by simp)
      have step : applyWrites store (w :: ws) = applyWrites (store ++ [(w.1, w.2)]) ws := by
        simp [applyWrites, storeSet_fresh store w.1 w.2 hw]
      have hfresh2 : ∀ k ∈ ws.map Prod.fst, ∀ p ∈ store ++ [(w.1, w.2)], p.1 ≠ k := by
        intro k hk p hp
        rcases List.mem_append.mp hp with hps | hpw
        · exact hfresh k (List.mem_cons_of_mem _ hk) p hps
        · have hpw2 : p = (w.1, w.2) := by simpa using hpw
          subst hpw2
          intro hkeq
          rw [← hkeq] at hk
          exact hnodup.1 hk
      rw [step, ih (store ++ [(w.1, w.2)]) hnodup.2 hfresh2]
      simp

/-- Object.values distributes over appending fresh writes. -/
theorem storeValues_append (a b : List (String × HistoryEntry)) :
    storeValues (a ++ b) = storeValues a ++ storeValues b := by
  simp [storeValues]

/-! ## Claim theorems -/

/-- C7: for every integer input, normalizeTimestamp returns either a value
at least 946,684,800,000 or null; it never returns a value in
[1, 946,684,800,000), and inputs that are absent, zero, or below 1,000,000
always yield null. -/
theorem normalizeTimestamp_total (t : Option ℤ) :
    (normalizeTimestamp t = none ∨
      ∃ v, normalizeTimestamp t = some v ∧ 946684800000 ≤ v) ∧
    (∀ x, t = some x → x < 1000000 → normalizeTimestamp t = none) ∧
    normalizeTimestamp none = none ∧ normalizeTimestamp (some 0) = none := by
  refine ⟨?_, ?_, rfl, by decide⟩
  · cases t with
    | none => exact Or.inl rfl
    | some x =>
        simp only [normalizeTimestamp]
        split_ifs with h1 h2 h3 h4 h5
        · exact Or.inl rfl
        · exact Or.inl rfl
        · exact Or.inr ⟨x * 1000, rfl, by omega⟩
        · exact Or.inl rfl
        · exact Or.inr ⟨x, rfl, by omega⟩
        · exact Or.inl rfl
  · intro x hx hlt
    subst hx
    simp only [normalizeTimestamp]
    split_ifs <;> first | rfl | omega

/-- C7 witness: a concrete small input is rejected. -/
theorem normalizeTimestamp_total_witness :
    normalizeTimestamp (some 500) = none ∧ (500 : ℤ) < 1000000 :=
  ⟨(normalizeTimestamp_total (some 500)).2.1 500 rfl (by decide), by decide⟩

/-- C10: every raw timestamp in the seconds-epoch band
[1,000,000, 946,684,800) is rejected, since multiplying it by 1000 stays
strictly below 946,684,800,000; consequently normalizeTimestamp succeeds
exactly on inputs already at least 946,684,800,000. -/
theorem normalizeTimestamp_secondsBand_dead (x : ℤ) :
    (1000000 ≤ x → x < 946684800 → normalizeTimestamp (some x) = none) ∧
    ((normalizeTimestamp (some x)).isSome ↔ 946684800000 ≤ x) := by
  constructor
  · intro hlo hhi
    simp only [normalizeTimestamp]
    split_ifs <;> first | rfl | omega
  · simp only [normalizeTimestamp]
    split_ifs with h1 h2 h3 h4 h5 <;> simp <;> omega

/-- C10 witness: 2,000,000 (a plausible seconds value) is rejected, and the
year-2000 millisecond boundary itself is accepted. -/
theorem normalizeTimestamp_secondsBand_dead_witness :
    normalizeTimestamp (some 2000000) = none ∧
    (normalizeTimestamp (some 946684800000)).isSome :=
  ⟨(normalizeTimestamp_secondsBand_dead 2000000).1 (by decide) (by decide),
   (normalizeTimestamp_secondsBand_dead 946684800000).2.mpr (by decide)⟩

/-- C6 counterexample: with an absent originalTimestamp the key uses
`Date.now()`, not 0, so the result is not the claimed `0`-fallback and is
not a function of the two arguments alone. -/
theorem generateHistoryKey_now_fallback :
    generateHistoryKey 5 none none = "5_0" ∧
    generateHistoryKey 6 none none = "6_0" ∧
    generateHistoryKey 5 none none ≠ "0_0" ∧
    generateHistoryKey 5 none none ≠ generateHistoryKey 6 none none := by
  decide

/-- C6 amended: for a present, nonzero originalTimestamp the key is the
concatenation of the timestamp rendering and the dot-replaced distance
rendering (0 when the distance is falsy), independent of the clock, and the
distance part contains no dot. -/
theorem generateHistoryKey_deterministic (now now2 t : ℤ) (d : Option ℚ) (h : t ≠ 0) :
    generateHistoryKey now (some t) d = jsStrI t ++ "_" ++ replaceDots (distKeyStr d) ∧
    generateHistoryKey now (some t) d = generateHistoryKey now2 (some t) d ∧
    ∀ c ∈ (replaceDots (distKeyStr d)).data, c ≠ '.' := by
  refine ⟨?_, ?_, ?_⟩
  · unfold generateHistoryKey
    simp [h]
  · unfold generateHistoryKey
    simp [h]
  · intro c hc
    have : c ∈ (distKeyStr d).data.map replaceDotChar := hc
    obtain ⟨a, _, rfl⟩ := List.mem_map.mp this
    unfold replaceDotChar
    split_ifs with ha
    · decide
    · exact ha

/-- C6 amended witness: a concrete present timestamp and fractional
distance. -/
theorem generateHistoryKey_deterministic_witness :
    (1700000000000 : ℤ) ≠ 0 ∧
    generateHistoryKey 1 (some 1700000000000) (some 2) =
      jsStrI 1700000000000 ++ "_" ++ replaceDots (distKeyStr (some 2)) ∧
    generateHistoryKey 1 (some 1700000000000) (some 2) =
      generateHistoryKey 2 (some 1700000000000) (some 2) :=
  ⟨by decide,
   (generateHistoryKey_deterministic 1 2 1700000000000 (some 2) (by decide)).1,
   (generateHistoryKey_deterministic 1 2 1700000000000 (some 2) (by decide)).2.1⟩

/-- C3 counterexample: when the store read throws, sync does not return the
claimed zero-count error object; it proceeds, writes the batch, and returns
a success-shaped result with no error field. -/
theorem sync_read_error_swallowed :
    (syncDeviceReadingsToHistory 1700000000000 (Except.error "boom")
        [⟨some 1700000000000, none⟩] none).1 = ⟨1, 0, none⟩ ∧
    (syncDeviceReadingsToHistory 1700000000000 (Except.error "boom")
        [⟨some 1700000000000, none⟩] none).2 ≠ [] ∧
    (⟨1, 0, none⟩ : SyncResult) ≠ ⟨0, 0, some "boom"⟩ := by
  decide

/-- C3 amended: a throwing existing-history read is caught inside
getHistoryRaw and surfaces as an empty history, so sync behaves exactly as
if the device had no stored entries (losing duplicate suppression); the
zero-count error result of sync is reserved for exceptions of its own
body. -/
theorem sync_read_error_as_empty (now : ℤ) (msg : String) (readings : List Reading)
    (tank : Option Tank) :
    syncDeviceReadingsToHistory now (Except.error msg) readings tank =
      syncDeviceReadingsToHistory now (Except.ok []) readings tank := rfl

/-- C1: evaluating sync on a reading whose raw timestamp (500,000,000, in
the seconds band) differs from the canonical one shows the persisted
timestamp field is the raw value — the reading spread overwrites the
canonical field — while the date field renders the canonical (synthesized)
instant, so date and timestamp disagree. -/
theorem sync_persists_raw_not_canonical :
    (syncDeviceReadingsToHistory 1700000000000 (Except.ok [])
        [⟨some 500000000, none⟩] none).2.map (fun w => w.2.timestamp) = [500000000] ∧
    (syncDeviceReadingsToHistory 1700000000000 (Except.ok [])
        [⟨some 500000000, none⟩] none).2.map (fun w => w.2.date) =
      [toISOString 1700000000000] ∧
    canonicalTs 1700000000000 1 0 500000000 = 1700000000000 ∧
    (500000000 : ℤ) ≠ 1700000000000 ∧
    toISOString 500000000 ≠ toISOString 1700000000000 := by
  decide

/-- C5: evaluating sync on five counter-timestamped readings (1..5, all
below the validity threshold) shows the canonical five-minute cadence
ending at the call instant survives only in the date fields; the persisted
timestamp fields are the raw counters 1..5, not the synthesized cadence the
claim describes. -/
theorem sync_counter_batch_persists_raw :
    (syncDeviceReadingsToHistory 1700000000000 (Except.ok [])
        [⟨some 1, none⟩, ⟨some 2, none⟩, ⟨some 3, none⟩, ⟨some 4, none⟩, ⟨some 5, none⟩]
        none).2.map (fun w => w.2.timestamp) = [1, 2, 3, 4, 5] ∧
    (syncDeviceReadingsToHistory 1700000000000 (Except.ok [])
        [⟨some 1, none⟩, ⟨some 2, none⟩, ⟨some 3, none⟩, ⟨some 4, none⟩, ⟨some 5, none⟩]
        none).2.map (fun w => w.2.date) =
      [toISOString 1699998800000, toISOString 1699999100000, toISOString 1699999400000,
       toISOString 1699999700000, toISOString 1700000000000] ∧
    ([1, 2, 3, 4, 5] : List ℤ) ≠
      [1699998800000, 1699999100000, 1699999400000, 1699999700000, 1700000000000] := by
  decide

/-- C8 counterexample: a cylinder tank with zero diameter and zero height
fails the cylinder guard and falls back to linear interpolation against the
default height 10 and capacity 20000; with distance 2 the computed volume
is 16000 litres, not the claimed zero, and that is the value sync stores on
the entry. -/
theorem tank_zero_dims_volume_not_zero :
    jsRound (tankCurrentVolumeRaw ⟨"cylinder", some 0, none, none, some 0, none, none⟩
        (tankWaterLevel ⟨"cylinder", some 0, none, none, some 0, none, none⟩ 2)) = 16000 ∧
    (buildHistoryEntry ⟨some 1700000000000, some 2⟩ 1700000000000 1700000000000
        (some ⟨"cylinder", some 0, none, none, some 0, none, none⟩)).currentVolume =
      some (jsRound (tankCurrentVolumeRaw ⟨"cylinder", some 0, none, none, some 0, none, none⟩
        (tankWaterLevel ⟨"cylinder", some 0, none, none, some 0, none, none⟩ 2))) ∧
    (16000 : ℤ) ≠ 0 := by
  have hwl : tankWaterLevel ⟨"cylinder", some 0, none, none, some 0, none, none⟩ 2 = 8 := by
    simp [tankWaterLevel, tankSensorHeight, jsOrQ]
    norm_num
  have hvol : tankCurrentVolumeRaw ⟨"cylinder", some 0, none, none, some 0, none, none⟩ 8 =
      16000 := by
    simp [tankCurrentVolumeRaw, truthyQ, jsOrQ]
    norm_num
  have hround : jsRound 16000 = 16000 := by
    unfold jsRound
    rw [Int.floor_eq_iff] <;> norm_num
  exact ⟨by rw [hwl, hvol, hround], rfl, by decide⟩

/-- C8 amended: a tank whose shape-specific dimensions are zero or absent
never faults: the truthiness guards reject the shape branch, the volume
falls back to linear interpolation against `height || 10` and
`capacity || 20000`, and the interpolation divisor is never zero (it is not
zero in general, rather than being zero as claimed). -/
theorem tank_malformed_dims_no_fault (tk : Tank) (d : ℚ)
    (hcyl : ¬ (tk.shape = "cylinder" ∧ truthyQ tk.diameter = true))
    (hcub : ¬ (tk.shape = "cuboid" ∧ truthyQ tk.length = true ∧ truthyQ tk.breadth = true)) :
    tankCurrentVolumeRaw tk (tankWaterLevel tk d) =
      tankWaterLevel tk d / jsOrQ tk.height 10 * jsOrQ tk.capacity 20000 ∧
    jsOrQ tk.height 10 ≠ 0 := by
  constructor
  · unfold tankCurrentVolumeRaw
    rw [if_neg hcyl, if_neg hcub]
  · exact jsOrQ_ne_zero tk.height 10 (by norm_num)

/-- C8 amended witness: the malformed cylinder tank at distance 2. -/
theorem tank_malformed_dims_no_fault_witness :
    tankCurrentVolumeRaw ⟨"cylinder", some 0, none, none, some 0, none, none⟩
        (tankWaterLevel ⟨"cylinder", some 0, none, none, some 0, none, none⟩ 2) =
      tankWaterLevel ⟨"cylinder", some 0, none, none, some 0, none, none⟩ 2 /
        jsOrQ (some 0) 10 * jsOrQ none 20000 ∧
    jsOrQ (some 0) 10 ≠ 0 :=
  tank_malformed_dims_no_fault ⟨"cylinder", some 0, none, none, some 0, none, none⟩ 2
    (by decide) (by decide)

/-- The escaped body of a quoted CSV cell always closes correctly: every
embedded quote appears doubled, so the scan accepts it. -/
theorem quotedTail_escape (l : List Char) :
    quotedTail (escQuoteChars l ++ ['"']) = true := by
  induction l with
  | nil => decide
  | cons c r ih =>
      by_cases hc : c = '"'
      · subst hc
        show quotedTail ('"' :: '"' :: (escQuoteChars r ++ ['"'])) = true
        rw [show quotedTail ('"' :: '"' :: (escQuoteChars r ++ ['"'])) =
            quotedTail (escQuoteChars r ++ ['"']) from by simp [quotedTail]]
        exact ih
      · show quotedTail ((if c = '"' then '"' :: '"' :: escQuoteChars r
            else c :: escQuoteChars r) ++ ['"']) = true
        rw [if_neg hc, List.cons_append]
        cases hE : escQuoteChars r ++ ['"'] with
        | nil => exact absurd hE (by simp)
        | cons a as =>
            rw [show quotedTail (c :: a :: as) = quotedTail (a :: as) from by
              simp [quotedTail, hc]]
            rw [← hE]
            exact ih

/-- Wrapping the quote-escaped rendering of any string in double quotes
yields a well-quoted CSV cell. -/
theorem wellQuotedB_wrap (s : String) :
    wellQuotedB ("\"" ++ escapeQuotes s ++ "\"") = true := by
  have hdata : ("\"" ++ escapeQuotes s ++ "\"").data =
      '"' :: (escQuoteChars s.data ++ ['"']) := by
    rw [String.data_append, String.data_append]
    rfl
  unfold wellQuotedB
  rw [hdata]
  simp only [if_pos rfl]
  exact quotedTail_escape s.data

/-- C9 amended: in the valve schema the changes column is double-quote
wrapped with every embedded quote doubled, so it never breaks the row
quoting; the tanks-schema valve-states column is wrapped but not escaped
(see the counterexample). -/
theorem valve_changes_cell_well_quoted (now : ℤ) (r : CsvRecord) :
    wellQuotedB ((valveRowCells now r).getLastD "") = true := by
  have hcell : (valveRowCells now r).getLastD "" =
      "\"" ++ escapeQuotes (jsOrStr r.changes "No changes") ++ "\"" := rfl
  rw [hcell]
  exact wellQuotedB_wrap (jsOrStr r.changes "No changes")

/-- C9 counterexample: a valve name containing a double quote reaches the
tanks-schema valve-states cell unescaped, so the emitted cell is not well
quoted and differs from the properly escaped rendering the claim
requires. -/
theorem tanks_valve_states_cell_breaks_quoting :
    (tanksRowCells 0 ⟨some 1700000000000, none, none, none, none, none, none, none, none,
        some [("A\"B", "open")], none, false, none, none, none, none, none, none,
        none⟩).getLastD "" = "\"A\"B:open\"" ∧
    wellQuotedB "\"A\"B:open\"" = false ∧
    "\"A\"B:open\"" ≠ "\"" ++ escapeQuotes "A\"B:open" ++ "\"" := by
  decide

/-- C4: when every effective timestamp of the stored history is below the
year-2000 millisecond threshold, the date-range filters are skipped
entirely, so querying with any start or end boundary returns exactly the
same sequence as querying with none. -/
theorem getHistory_filter_noop_when_all_low (now : ℤ) (entries : List HistoryEntry)
    (startTime endTime : Option ℤ)
    (hlow : ∀ q ∈ normalizeHistory now entries, q.entry.timestamp < 946684800000) :
    getHistory now entries startTime endTime = getHistory now entries none none := by
  have hval : (normalizeHistory now entries).any
      (fun q => decide (946684800000 < q.entry.timestamp)) = false := by
    rw [List.any_eq_false]
    intro q hq
    simpa using not_lt.mpr (le_of_lt (hlow q hq))
  simp only [getHistory, hval]
  rfl

/-- C4 witness: a one-entry history whose effective timestamp is the small
counter value 5; a (3, 10) window query equals the unfiltered query. -/
theorem getHistory_filter_noop_when_all_low_witness :
    (∀ q ∈ normalizeHistory 7
        [⟨none, none, none, 0, 0, 5, "", none, none, none, none, none, none, none, none, none⟩],
      q.entry.timestamp < 946684800000) ∧
    getHistory 7
        [⟨none, none, none, 0, 0, 5, "", none, none, none, none, none, none, none, none, none⟩]
        (some 3) (some 10) =
      getHistory 7
        [⟨none, none, none, 0, 0, 5, "", none, none, none, none, none, none, none, none, none⟩]
        none none :=
  ⟨by decide,
   getHistory_filter_noop_when_all_low 7
     [⟨none, none, none, 0, 0, 5, "", none, none, none, none, none, none, none, none, none⟩]
     (some 3) (some 10) (by decide)⟩

/-- C2 counterexample: a reading with distance 0 is written by the first
sync and written again by the second, because the in-loop duplicate key
renders a falsy distance as "0" while the key rebuilt from the stored entry
renders it as the empty string; the second call reports one synced and zero
skipped instead of the claimed zero synced, one skipped. -/
theorem sync_second_call_resyncs_zero_distance :
    (syncDeviceReadingsToHistory 1700000000001
        (Except.ok (storeValues (applyWrites []
          (syncDeviceReadingsToHistory 1700000000000 (Except.ok (storeValues []))
            [⟨some 1700000000000, some 0⟩] none).2)))
        [⟨some 1700000000000, some 0⟩] none).1 = ⟨1, 0, none⟩ ∧
    (⟨1, 0, none⟩ : SyncResult) ≠ ⟨0, 1, none⟩ := by
  decide

/-- Under the JS Date-range side conditions (raw timestamps at most
8.64e15, a call instant at least the total synthesis span and at most
8.64e15), every canonical timestamp the sync loop can compute lies in
[0, 8.64e15] — the range on which `new Date(t).toISOString()` is defined
and agrees with the total model renderer, so no RangeError can interrupt
the loop on such inputs. -/
theorem canonicalTs_in_date_range (now : ℤ) (n i : ℕ) (raw : ℤ)
    (hraw : raw ≤ 8640000000000000) (hn : (n : ℤ) * 300000 ≤ now)
    (hnow : now ≤ 8640000000000000) :
    0 ≤ canonicalTs now n i raw ∧ canonicalTs now n i raw ≤ 8640000000000000 := by
  have hsynth : 0 ≤ synthTs now n i ∧ synthTs now n i ≤ 8640000000000000 := by
    unfold synthTs
    constructor <;> omega
  unfold canonicalTs
  cases hN : normalizeTimestamp (some raw) with
  | none => exact hsynth
  | some v =>
      have hv : v = raw ∨ (v = raw * 1000 ∧ raw < 946684800) := by
        revert hN
        simp only [normalizeTimestamp]
        split_ifs with h1 h2 h3 h4 h5 <;> intro hN <;> simp_all
      have hvT : 946684800000 ≤ v := by
        revert hN
        simp only [normalizeTimestamp]
        split_ifs with h1 h2 h3 h4 h5 <;> intro hN <;> simp_all <;> omega
      show 0 ≤ (if v < 946684800000 then synthTs now n i else v) ∧
        (if v < 946684800000 then synthTs now n i else v) ≤ 8640000000000000
      by_cases hlt : v < 946684800000
      · rw [if_pos hlt]
        exact hsynth
      · rw [if_neg hlt]
        rcases hv with hvr | ⟨hvm, hband⟩
        · constructor <;> omega
        · constructor <;> omega

/-- C2 amended: repeating a batch is idempotent provided every reading that
carries a timestamp also carries a present, nonzero distance (falsy
distances defeat the duplicate check, see the counterexample), the first
writes land in storage slots distinct from one another and from the
pre-existing entries (true of stores this code populated, but not of an
arbitrary store state), and the batch stays inside the JS Date range (raw
timestamps at most 8.64e15 and a call instant covering the synthesis span):
then the second call syncs nothing and skips the whole batch, readings
without a timestamp being skipped in both calls, and every canonical
timestamp the first call renders is a valid Date, so no RangeError can
divert either call to the zero-count error result. -/
theorem sync_idempotent_truthy_distances (now1 now2 : ℤ)
    (store : List (String × HistoryEntry)) (readings : List Reading) (tank : Option Tank)
    (hdist : ∀ r ∈ readings, rawTs r ≠ 0 → truthyQ r.distance = true)
    (hnodup : (((syncDeviceReadingsToHistory now1 (Except.ok (storeValues store)) readings
        tank).2).map Prod.fst).Nodup)
    (hfresh : ∀ k ∈ ((syncDeviceReadingsToHistory now1 (Except.ok (storeValues store))
        readings tank).2).map Prod.fst, ∀ p ∈ store, p.1 ≠ k)
    (hts : ∀ r ∈ readings, rawTs r ≤ 8640000000000000)
    (hnow1 : (readings.length : ℤ) * 300000 ≤ now1)
    (hnow2 : now1 ≤ 8640000000000000) :
    (syncDeviceReadingsToHistory now2
        (Except.ok (storeValues (applyWrites store
          (syncDeviceReadingsToHistory now1 (Except.ok (storeValues store)) readings
            tank).2)))
        readings tank).1 = ⟨0, readings.length, none⟩ ∧
    ∀ r ∈ readings, ∀ i : ℕ, i < readings.length →
      0 ≤ canonicalTs now1 readings.length i (rawTs r) ∧
        canonicalTs now1 readings.length i (rawTs r) ≤ 8640000000000000 := by
  refine ⟨?_, fun r hr i _ =>
    canonicalTs_in_date_range now1 readings.length i (rawTs r) (hts r hr) hnow1 hnow2⟩
  by_cases hemp : readings.isEmpty
  · have hnil : readings = [] := List.isEmpty_iff.mp hemp
    subst hnil
    simp [syncDeviceReadingsToHistory, applyWrites]
  · have hsync1 : (syncDeviceReadingsToHistory now1 (Except.ok (storeValues store)) readings
        tank).2 =
        (processReadings now1 (readings.insertionSort (fun a b => rawTs a ≤ rawTs b)).length
          ((storeValues store).map entryDedupKey) tank 0
          (readings.insertionSort (fun a b => rawTs a ≤ rawTs b))).2.2 := by
      simp only [syncDeviceReadingsToHistory]
      rw [if_neg hemp]
      rfl
    rw [hsync1] at hnodup hfresh
    have happ : applyWrites store
        (processReadings now1 (readings.insertionSort (fun a b => rawTs a ≤ rawTs b)).length
          ((storeValues store).map entryDedupKey) tank 0
          (readings.insertionSort (fun a b => rawTs a ≤ rawTs b))).2.2 =
        store ++ (processReadings now1
          (readings.insertionSort (fun a b => rawTs a ≤ rawTs b)).length
          ((storeValues store).map entryDedupKey) tank 0
          (readings.insertionSort (fun a b => rawTs a ≤ rawTs b))).2.2 :=
      applyWrites_fresh _ store hnodup hfresh
    have hcover : ∀ r ∈ readings.insertionSort (fun a b => rawTs a ≤ rawTs b),
        rawTs r = 0 ∨ readingDedupKey r ∈
          (storeValues (applyWrites store
            (processReadings now1
              (readings.insertionSort (fun a b => rawTs a ≤ rawTs b)).length
              ((storeValues store).map entryDedupKey) tank 0
              (readings.insertionSort (fun a b => rawTs a ≤ rawTs b))).2.2)).map
            entryDedupKey := by
      intro r hr
      by_cases hraw : rawTs r = 0
      · exact Or.inl hraw
      · right
        rw [happ, storeValues_append, List.map_append]
        have htr : truthyQ r.distance = true :=
          hdist r ((List.mem_insertionSort _).mp hr) hraw
        rcases processReadings_covers now1
            (readings.insertionSort (fun a b => rawTs a ≤ rawTs b)).length
            ((storeValues store).map entryDedupKey) tank 0
            (readings.insertionSort (fun a b => rawTs a ≤ rawTs b)) r hr hraw htr with
          hk | ⟨p, hp, hkeq⟩
        · exact List.mem_append_left _ hk
        · refine List.mem_append_right _ ?_
          rw [← hkeq]
          exact List.mem_map_of_mem entryDedupKey (List.mem_map_of_mem Prod.snd hp)
    have hskip := processReadings_all_skip now2
      (readings.insertionSort (fun a b => rawTs a ≤ rawTs b)).length
      ((storeValues (applyWrites store
        (processReadings now1 (readings.insertionSort (fun a b => rawTs a ≤ rawTs b)).length
          ((storeValues store).map entryDedupKey) tank 0
          (readings.insertionSort (fun a b => rawTs a ≤ rawTs b))).2.2)).map entryDedupKey)
      tank 0 (readings.insertionSort (fun a b => rawTs a ≤ rawTs b)) hcover
    have hsync2 : (syncDeviceReadingsToHistory now2
        (Except.ok (storeValues (applyWrites store
          (syncDeviceReadingsToHistory now1 (Except.ok (storeValues store)) readings
            tank).2)))
        readings tank).1 =
        ⟨(processReadings now2 (readings.insertionSort (fun a b => rawTs a ≤ rawTs b)).length
            ((storeValues (applyWrites store
              (processReadings now1
                (readings.insertionSort (fun a b => rawTs a ≤ rawTs b)).length
                ((storeValues store).map entryDedupKey) tank 0
                (readings.insertionSort (fun a b => rawTs a ≤ rawTs b))).2.2)).map
              entryDedupKey) tank 0
            (readings.insertionSort (fun a b => rawTs a ≤ rawTs b))).1,
         (processReadings now2 (readings.insertionSort (fun a b => rawTs a ≤ rawTs b)).length
            ((storeValues (applyWrites store
              (processReadings now1
                (readings.insertionSort (fun a b => rawTs a ≤ rawTs b)).length
                ((storeValues store).map entryDedupKey) tank 0
                (readings.insertionSort (fun a b => rawTs a ≤ rawTs b))).2.2)).map
              entryDedupKey) tank 0
            (readings.insertionSort (fun a b => rawTs a ≤ rawTs b))).2.1, none⟩ := by
      rw [hsync1]
      simp only [syncDeviceReadingsToHistory]
      rw [if_neg hemp]
      rfl
    rw [hsync2, hskip]
    have hlen : (readings.insertionSort (fun a b => rawTs a ≤ rawTs b)).length =
        readings.length := List.length_insertionSort _ _
    rw [hlen]

/-- C2 amended witness: a two-reading batch (one timestamped with distance
2, one without a timestamp) synced twice from an empty store, inside the
Date range; the second call reports zero synced and two skipped, and the
canonical timestamps of the first call are valid Dates. -/
theorem sync_idempotent_truthy_distances_witness :
    (∀ r ∈ [(⟨some 1700000000000, some 2⟩ : Reading), ⟨none, some 3⟩],
        rawTs r ≠ 0 → truthyQ r.distance = true) ∧
    (∀ r ∈ [(⟨some 1700000000000, some 2⟩ : Reading), ⟨none, some 3⟩],
        rawTs r ≤ 8640000000000000) ∧
    (((syncDeviceReadingsToHistory 1700000100000 (Except.ok (storeValues []))
        [⟨some 1700000000000, some 2⟩, ⟨none, some 3⟩] none).2).map Prod.fst).Nodup ∧
    ((syncDeviceReadingsToHistory 1700000200000
        (Except.ok (storeValues (applyWrites []
          (syncDeviceReadingsToHistory 1700000100000 (Except.ok (storeValues []))
            [⟨some 1700000000000, some 2⟩, ⟨none, some 3⟩] none).2)))
        [⟨some 1700000000000, some 2⟩, ⟨none, some 3⟩] none).1 = ⟨0, 2, none⟩ ∧
      ∀ r ∈ [(⟨some 1700000000000, some 2⟩ : Reading), ⟨none, some 3⟩], ∀ i : ℕ, i < 2 →
        0 ≤ canonicalTs 1700000100000 2 i (rawTs r) ∧
          canonicalTs 1700000100000 2 i (rawTs r) ≤ 8640000000000000) :=
  ⟨by decide, by decide, by decide,
   sync_idempotent_truthy_distances 1700000100000 1700000200000 []
     [⟨some 1700000000000, some 2⟩, ⟨none, some 3⟩] none (by decide) (by decide)
     (by decide) (by decide) (by decide) (by decide)⟩
